import Mathlib

/-!
Verification development for the ak-tools activation-key engine.

Shallow embedding of the core modules:
- src/utils/activationKey.ts : signJWT, validateJWTSignature, checkPrivateKey,
  generateEC512KeyPair, over an idealized model of the external jose library;
- src/hooks/use-local-storage-collection.ts : the persisted collection store;
- src/components/pages/ActivationKeyEditor.tsx : handleSign and the
  validation effect of the editor session.

Modelling conventions. PEM texts are abstracted to the pair of the header
format the code inspects and the raw key material; tokens are abstracted to
the parse tree of the compact three-segment form (a structurally broken token
is kept as raw text); Date values are Unix epoch seconds (Int); the jose
library (an external npm dependency, not part of this repository) is modelled
from its documented behaviour as an ideal signature scheme, with signature
checking succeeding exactly when the verifying public key carries the same
material as the signing private key and the signed content is unchanged.
-/

namespace AkTools

/-- The PEM header family a key text exhibits. Models the only inspection the
code performs on raw key strings: substring tests for the PEM begin markers
(BEGIN PRIVATE KEY for PKCS8, BEGIN EC PRIVATE KEY for SEC1, BEGIN PUBLIC KEY
for SPKI). emptyText stands for the empty string, which is falsy in the
source check on keyPair.privateKey. -/
inductive KeyFormat where
  | pkcs8
  | sec1
  | spki
  | emptyText
  | other
deriving DecidableEq

/-- A raw PEM key text: the header format it contains plus the underlying key
material (abstracted to a number; two texts with the same material denote the
same curve point). -/
structure KeyText where
  fmt : KeyFormat
  material : Nat
deriving DecidableEq

/-- Models key.includes of the SEC1 begin marker in checkPrivateKey. -/
def includesSec1Header (k : KeyText) : Bool := k.fmt == KeyFormat.sec1

/-- Models JS falsiness of an empty key string in the signJWT guard. -/
def isEmptyKeyText (k : KeyText) : Bool := k.fmt == KeyFormat.emptyText

/-- KeyPair record from src/types/activationKey.ts. -/
structure KeyPair where
  id : String
  name : String
  privateKey : KeyText
  publicKey : KeyText
  createdAt : String
deriving DecidableEq

/-- Decoded protected header of a token. The code only reads alg. -/
structure Header where
  alg : Option String
deriving DecidableEq

/-- Decoded payload (claim set) of a token: the two registered claims the
engine touches, plus the remaining domain claims (license fields), opaque. -/
structure Payload where
  exp : Option Int
  iat : Option Int
  extra : List (String × String)
deriving DecidableEq

/-- An ECDSA signature in the ideal model: it binds the material of the
signing private key and the exact header and payload it covers. -/
structure Sig where
  material : Nat
  signedHeader : Header
  signedPayload : Payload
deriving DecidableEq

/-- A compact token. compact is the parse tree of header.payload.signature;
malformed keeps the raw text of a token whose header segment does not decode
as base64url JSON. -/
inductive Token where
  | compact (header : Header) (payload : Payload) (sig : Sig)
  | malformed (text : String)
deriving DecidableEq

/-- Imported private key object (jose KeyLike), reduced to its material. -/
structure PrivateKeyObj where
  material : Nat
deriving DecidableEq

/-- Imported public key object (jose KeyLike), reduced to its material. -/
structure PublicKeyObj where
  material : Nat
deriving DecidableEq

/-- Error message thrown by checkPrivateKey in src/utils/activationKey.ts. -/
def sec1ErrorMsg : String :=
  "Only PKCS8 format private keys are supported. Please convert your SEC1 key to PKCS8 format."

/-- checkPrivateKey from src/utils/activationKey.ts lines 66-72: throws on a
SEC1 header, otherwise returns the key unchanged. -/
def checkPrivateKey (key : KeyText) : Except String KeyText :=
  if includesSec1Header key then Except.error sec1ErrorMsg
  else Except.ok key

/-- Modelled from the jose library (external dependency): importPKCS8
succeeds exactly on a PKCS8 PEM text, yielding the key object. The alg
argument selects the curve; the source always passes ES512. -/
def importPKCS8 (key : KeyText) (alg : String) : Except String PrivateKeyObj :=
  if key.fmt == KeyFormat.pkcs8 && alg == "ES512" then Except.ok ⟨key.material⟩
  else Except.error "Invalid or unsupported PKCS8 key"

/-- Modelled from the jose library (external dependency): importSPKI succeeds
exactly on an SPKI PEM text whose algorithm argument matches the P-521 curve
of the keys this engine produces, i.e. ES512. -/
def importSPKI (key : KeyText) (alg : Option String) : Except String PublicKeyObj :=
  if key.fmt == KeyFormat.spki && alg == some "ES512" then Except.ok ⟨key.material⟩
  else Except.error "Invalid or unsupported SPKI key"

/-- Ideal signing primitive: the signature records the signing material and
the covered content. -/
def mkSignature (m : Nat) (h : Header) (p : Payload) : Sig := ⟨m, h, p⟩

/-- Modelled from the jose library (external dependency): the SignJWT builder
chain used by signJWT. setProtectedHeader sets alg; setIssuedAt with no
argument overwrites any iat in the claim set with the current timestamp;
setExpirationTime overwrites exp with the given instant (epoch seconds). -/
def joseSignJWT (payload : Payload) (alg : String) (priv : PrivateKeyObj)
    (expiryEpoch : Int) (now : Int) : Token :=
  let hdr : Header := { alg := some alg }
  let pl : Payload := { payload with iat := some now, exp := some expiryEpoch }
  Token.compact hdr pl (mkSignature priv.material hdr pl)

/-- Message of the jose JWTExpired error raised by claim validation. -/
def jwtExpiredMsg : String := "\"exp\" claim timestamp check failed"

/-- Message of the SyntaxError raised by JSON.parse on a header segment that
is not base64url JSON. -/
def jsonParseErrorMsg : String := "Unexpected token in JSON"

/-- Modelled from the jose library (external dependency): jwtVerify checks
the compact structure, then the JWS signature against the public key, then
validates the JWT claim set; with default options an exp claim in the past
(exp less than or equal to the current time, zero clock tolerance) raises
JWTExpired. -/
def joseJwtVerify (jwt : Token) (pub : PublicKeyObj) (now : Int) : Except String Unit :=
  match jwt with
  | Token.malformed _ => Except.error "Invalid Compact JWS"
  | Token.compact hdr pl sig =>
    if sig = mkSignature pub.material hdr pl then
      match pl.exp with
      | some e => if e ≤ now then Except.error jwtExpiredMsg else Except.ok ()
      | none => Except.ok ()
    else Except.error "signature verification failed"

/-- signJWT from src/utils/activationKey.ts lines 74-100: guard on a missing
private key, checkPrivateKey, importPKCS8 with ES512, then the SignJWT chain.
The try block rethrows every error unchanged. now is the clock read by
setIssuedAt. -/
def signJWT (payload : Payload) (algorithm : String) (keyPair : KeyPair)
    (expiryDate : Int) (now : Int) : Except String Token :=
  if isEmptyKeyText keyPair.privateKey then
    Except.error "Private key is required"
  else
    match checkPrivateKey keyPair.privateKey with
    | Except.error msg => Except.error msg
    | Except.ok normalizedKey =>
      match importPKCS8 normalizedKey "ES512" with
      | Except.error msg => Except.error msg
      | Except.ok privateKey =>
        Except.ok (joseSignJWT payload algorithm privateKey expiryDate now)

/-- Nested error detail of ValidationResult (src/utils/activationKey.ts
lines 106-110). -/
structure VErrorDetail where
  expired : Option Bool
  sigFlag : Option Bool
  message : Option String
deriving DecidableEq

/-- ValidationResult from src/utils/activationKey.ts lines 102-111 (the
optional keyName field is never set on these code paths and is omitted). -/
structure ValidationResult where
  isValid : Bool
  error : Option String
  errors : Option VErrorDetail
deriving DecidableEq

/-- Models the first two statements of the try block of validateJWTSignature:
jwt.split on the dot and JSON.parse(atob(header)). On a structurally broken
token the parse throws a SyntaxError. -/
def decodeHeaderSegment (jwt : Token) : Except String Header :=
  match jwt with
  | Token.compact h _ _ => Except.ok h
  | Token.malformed _ => Except.error jsonParseErrorMsg

/-- Message returned when no key pair is supplied. -/
def noMatchingKeyMsg : String := "No matching key found in your list of keys"

/-- validateJWTSignature from src/utils/activationKey.ts lines 113-154.
Note that the code runs checkPrivateKey on keyPair.publicKey, and that every
failure in the try block is reported with the signature flag set. now is the
verification clock used by jwtVerify claim validation. -/
def validateJWTSignature (jwt : Token) (keyPair : Option KeyPair) (now : Int) :
    ValidationResult :=
  match keyPair with
  | none =>
    { isValid := false
      error := some noMatchingKeyMsg
      errors := some { expired := none, sigFlag := some true, message := some noMatchingKeyMsg } }
  | some kp =>
    let attempt : Except String Unit :=
      match decodeHeaderSegment jwt with
      | Except.error msg => Except.error msg
      | Except.ok decodedHeader =>
        match checkPrivateKey kp.publicKey with
        | Except.error msg => Except.error msg
        | Except.ok normalizedKey =>
          match importSPKI normalizedKey decodedHeader.alg with
          | Except.error msg => Except.error msg
          | Except.ok publicKey => joseJwtVerify jwt publicKey now
    match attempt with
    | Except.ok _ => { isValid := true, error := none, errors := none }
    | Except.error msg =>
      { isValid := false
        error := some msg
        errors := some { expired := none, sigFlag := some true, message := some msg } }

/-- generateEC512KeyPair from src/utils/activationKey.ts lines 156-177: a
fresh ES512 key pair exported as PKCS8 private and SPKI public text over the
same material. material stands for the entropy drawn by generateKeyPair, uuid
for crypto.randomUUID, nowIso for the creation timestamp. -/
def generateEC512KeyPair (material : Nat) (uuid : String) (nowIso : String) : KeyPair :=
  { id := uuid
    name := "Generated ES512 Key Pair"
    privateKey := { fmt := KeyFormat.pkcs8, material := material }
    publicKey := { fmt := KeyFormat.spki, material := material }
    createdAt := nowIso }

/-- SUPPORTED_ALGORITHMS from src/components/activationkey/validation-status.tsx. -/
def SUPPORTED_ALGORITHMS : List String := ["ES512"]

/-- Bool test that a message mentions PKCS8 (substring check). -/
def mentionsPKCS8 (msg : String) : Bool :=
  decide (List.IsInfix "PKCS8".toList msg.toList)

/-! ## Persisted collection store
Embedding of src/hooks/use-local-storage-collection.ts. A stored item is the
generic T extending StorableItem: its id, its createdAt timestamp, and the
remaining domain fields collapsed into one opaque component. The storage cell
is modelled at the granularity JSON.parse distinguishes: a JSON array of
items, some other piece of valid JSON, or text that is not JSON at all. -/

/-- The generic collection item (StorableItem plus the domain fields). -/
structure StorableItem where
  id : String
  createdAt : String
  fields : String
deriving DecidableEq

/-- What localStorage.getItem returned, as seen through JSON.parse. -/
inductive StoredVal where
  | jsonArray (xs : List StorableItem)
  | jsonNonArray
  | notJson (text : String)
deriving DecidableEq

/-- Whether a stored value is a JSON array. -/
def isJsonArrayVal : StoredVal → Bool
  | StoredVal.jsonArray _ => true
  | _ => false

/-- The state of one store instance plus its storage cell. writeFails models
the environment: whether localStorage.setItem throws (e.g. quota exceeded). -/
structure StoreState where
  storage : Option StoredVal
  items : List StorableItem
  error : Option String
  writeFails : Bool
deriving DecidableEq

/-- Message of the exception thrown by a failing localStorage.setItem. -/
def storageWriteErrorMsg : String := "QuotaExceededError"

/-- Message of the exception thrown by JSON.parse on corrupt storage text. -/
def storageParseErrorMsg : String := "Unexpected token in JSON at position 0"

/-- persist from use-local-storage-collection.ts lines 87-93: write the new
array, capturing a thrown error in the store error state instead of
propagating it. -/
def persist (s : StoreState) (newItems : List StorableItem) : StoreState :=
  if s.writeFails then { s with error := some storageWriteErrorMsg }
  else { s with storage := some (StoredVal.jsonArray newItems) }

/-- The defaults-seeding branch of the load effect: setItems(defaults) then
localStorage.setItem(storageKey, JSON.stringify(defaults)). If the write
throws, control reaches the catch block, which records the error and (the
default set being non-empty) sets the items to the defaults again. The Bool
reports whether the default set was written to storage. -/
def seedDefaults (s : StoreState) (defaults : List StorableItem) : StoreState × Bool :=
  if s.writeFails then
    ({ s with items := defaults, error := some storageWriteErrorMsg }, false)
  else
    ({ s with items := defaults, storage := some (StoredVal.jsonArray defaults) }, true)

/-- The load effect of use-local-storage-collection.ts lines 61-85. Returns
the new state and whether the default set was written to storage. -/
def loadOp (s : StoreState) (defaults : List StorableItem) : StoreState × Bool :=
  match s.storage with
  | some (StoredVal.jsonArray xs) =>
    if xs.length > 0 then ({ s with items := xs }, false)
    else if defaults.length > 0 then seedDefaults s defaults
    else (s, false)
  | some StoredVal.jsonNonArray =>
    if defaults.length > 0 then seedDefaults s defaults
    else (s, false)
  | some (StoredVal.notJson _) =>
    ({ s with
        error := some storageParseErrorMsg
        items := if defaults.length > 0 then defaults else s.items }, false)
  | none =>
    if defaults.length > 0 then seedDefaults s defaults
    else (s, false)

/-- add from use-local-storage-collection.ts lines 95-109: build the new item
from the input fields plus a generated id (crypto.randomUUID, here the uuid
argument) and timestamp (the now argument), append, persist, return it. -/
def addOp (s : StoreState) (fields uuid now : String) : StoreState × StorableItem :=
  let newItem : StorableItem := { id := uuid, createdAt := now, fields := fields }
  let updated := s.items ++ [newItem]
  ({ persist s updated with items := updated }, newItem)

/-- update from use-local-storage-collection.ts lines 111-119. The partial
update is modelled as replacing the opaque domain fields of the matching
item. -/
def updateOp (s : StoreState) (id newFields : String) : StoreState :=
  let updated := s.items.map fun item =>
    if item.id == id then { item with fields := newFields } else item
  { persist s updated with items := updated }

/-- remove from use-local-storage-collection.ts lines 121-127. -/
def removeOp (s : StoreState) (id : String) : StoreState :=
  let updated := s.items.filter fun item => item.id != id
  { persist s updated with items := updated }

/-- getById from use-local-storage-collection.ts lines 129-131. -/
def getById (s : StoreState) (id : String) : Option StorableItem :=
  s.items.find? fun item => item.id == id

/-- One request to add an item: the input fields plus the id and timestamp
the call would generate. -/
structure AddReq where
  fields : String
  uuid : String
  createdAt : String
deriving DecidableEq

/-- Fold a list of add calls over the store. -/
def addMany (s : StoreState) (reqs : List AddReq) : StoreState :=
  reqs.foldl (fun st r => (addOp st r.fields r.uuid r.createdAt).1) s

/-- The item an add request produces. -/
def itemOfReq (r : AddReq) : StorableItem :=
  { id := r.uuid, createdAt := r.createdAt, fields := r.fields }

/-- A store lifecycle step: a mount load or one of the mutating calls. -/
inductive StoreOp where
  | load
  | addItem (fields uuid now : String)
  | updateItem (id newFields : String)
  | removeItem (id : String)
deriving DecidableEq

/-- Run a sequence of store operations, counting how many times the default
set was written to storage by load. -/
def runStore (defaults : List StorableItem) (s : StoreState) (ops : List StoreOp) :
    StoreState × Nat :=
  ops.foldl
    (fun acc op =>
      match op with
      | StoreOp.load =>
        let r := loadOp acc.1 defaults
        (r.1, acc.2 + (if r.2 then 1 else 0))
      | StoreOp.addItem f u n => ((addOp acc.1 f u n).1, acc.2)
      | StoreOp.updateItem id f => (updateOp acc.1 id f, acc.2)
      | StoreOp.removeItem id => (removeOp acc.1 id, acc.2))
    (s, 0)

/-! ## Editor session validation effect
Embedding of the asynchronous validation flow of
src/components/pages/ActivationKeyEditor.tsx. The useEffect at lines 141-149
launches validateJWTSignature for the current token and selected key whenever
the selected key changes, and its completion handler dispatches
SET_VALIDATION unconditionally. verif abstracts the outcome of a
verification for a given (token text, key id) pair under the fixed key list
and clock of the scenario. -/

/-- An outstanding asynchronous verification: the (token, key) pair it was
launched for. -/
structure PendingValidation where
  jwtText : String
  keyId : String
deriving DecidableEq

/-- The slice of the editor state the validation flow touches, plus the list
of outstanding verifications. -/
structure EditorSession where
  jwtText : String
  selectedKeyId : String
  validation : Option ValidationResult
  pending : List PendingValidation
deriving DecidableEq

/-- Events of the validation flow: a key selection (dispatch SET_SELECTED_KEY
followed by the effect re-run) and the resolution of the i-th outstanding
verification promise, in either order. -/
inductive SessionEvent where
  | selectKey (id : String)
  | resolveAt (i : Nat)
deriving DecidableEq

/-- One step of the validation flow. On selectKey the effect guard
(jwt and selectedKeyId both non-empty) decides whether a verification is
launched. On resolution the completion handler dispatches SET_VALIDATION with
the arrived result unconditionally, exactly as the source .then callback
does: there is no comparison against the current (token, key) pair. -/
def sessionStep (verif : String → String → ValidationResult)
    (s : EditorSession) (e : SessionEvent) : EditorSession :=
  match e with
  | SessionEvent.selectKey id =>
    let s1 := { s with selectedKeyId := id }
    if s1.jwtText != "" && id != "" then
      { s1 with pending := s1.pending ++ [{ jwtText := s1.jwtText, keyId := id }] }
    else s1
  | SessionEvent.resolveAt i =>
    match s.pending.get? i with
    | some req =>
      { s with
          validation := some (verif req.jwtText req.keyId)
          pending := s.pending.eraseIdx i }
    | none => s

/-- Run a sequence of session events. -/
def sessionRun (verif : String → String → ValidationResult)
    (s : EditorSession) (es : List SessionEvent) : EditorSession :=
  es.foldl (sessionStep verif) s

/-! ## handleSign
Embedding of handleSign from src/components/pages/ActivationKeyEditor.tsx
lines 226-273, up to the production of the new token. The payload text of the
editor is modelled by its JSON.parse outcome (none when parsing fails, in
which case handleSign reports the defect and leaves the state unchanged);
dates are epoch seconds. -/

/-- getKeyPairById over the key list (use-local-storage-collection getById
specialised by use-key-pairs). -/
def getKeyPairById (keys : List KeyPair) (id : String) : Option KeyPair :=
  keys.find? fun k => k.id == id

/-- handleSign: guard on a selected key, parse the payload text, apply the
expiry override onto exp and the issued override onto iat only when the
corresponding date is set, then call signJWT with the expiry argument
expiryDate or else the payload exp (JS truthiness: an exp of 0 falls through
to the current time) or else the current time. Returns none when the function
returns early (no key, or invalid JSON), otherwise the signJWT outcome. -/
def handleSign (editorPayload : Option Payload) (expiryDate issuedDate : Option Int)
    (algorithm : String) (keys : List KeyPair) (selectedKeyId : String)
    (now : Int) : Option (Except String Token) :=
  match getKeyPairById keys selectedKeyId with
  | none => none
  | some selectedKey =>
    match editorPayload with
    | none => none
    | some payload0 =>
      let p1 := match expiryDate with
        | some e => { payload0 with exp := some e }
        | none => payload0
      let p2 := match issuedDate with
        | some d => { p1 with iat := some d }
        | none => p1
      let expiryArg : Int := match expiryDate with
        | some e => e
        | none =>
          match p2.exp with
          | some e => if e == 0 then now else e
          | none => now
      some (signJWT p2 algorithm selectedKey expiryArg now)

/-! ## Helper lemmas -/

/-- find? over an append whose left part has no match returns the appended
element when it matches. -/
theorem find_append_fresh (l : List StorableItem) (a : StorableItem) (u : String)
    (h : ∀ x ∈ l, (x.id == u) = false) (ha : (a.id == u) = true) :
    (l ++ [a]).find? (fun x => x.id == u) = some a := by
  induction l with
  | nil => simp [List.find?, ha]
  | cons b bs ih =>
    have hb := h b (by simp)
    simpa [List.find?, hb] using ih fun x hx => h x (by simp [hx])

/-- find? for an id over the list from which that id was filtered out. -/
theorem find_filter_ne (l : List StorableItem) (id : String) :
    (l.filter fun x => x.id != id).find? (fun x => x.id == id) = none := by
  rw [List.find?_eq_none]
  intro x hx
  have hmem := (List.mem_filter.mp hx).2
  simp only [bne_iff_ne, ne_eq] at hmem
  simp [hmem]

/-- Folding add calls appends the produced items in call order. -/
theorem addMany_items (reqs : List AddReq) (s : StoreState) :
    (addMany s reqs).items = s.items ++ reqs.map itemOfReq := by
  induction reqs generalizing s with
  | nil => simp [addMany]
  | cons r rs ih =>
    show (addMany (addOp s r.fields r.uuid r.createdAt).1 rs).items = _
    rw [ih]
    simp [addOp, itemOfReq]

/-! ## Claim theorems -/

/-- C1 (amended): for every payload, every algorithm in the supported set,
every freshly generated key pair, and every expiry instant strictly later
than the verification time, verifying the signed token against the
generating key pair yields isValid true. (As stated over every expiry
instant the claim fails: jwtVerify folds the exp check into the result, see
the counterexample.) -/
theorem verify_sign_roundtrip (payload : Payload) (alg : String) (m : Nat)
    (uuid ts : String) (e tSign tVerify : Int)
    (halg : alg ∈ SUPPORTED_ALGORITHMS) (hfuture : tVerify < e) :
    signJWT payload alg (generateEC512KeyPair m uuid ts) e tSign =
      Except.ok (joseSignJWT payload alg ⟨m⟩ e tSign) ∧
    validateJWTSignature (joseSignJWT payload alg ⟨m⟩ e tSign)
        (some (generateEC512KeyPair m uuid ts)) tVerify =
      { isValid := true, error := none, errors := none } := by
  have halg2 : alg = "ES512" := by simpa [SUPPORTED_ALGORITHMS] using halg
  subst halg2
  refine ⟨rfl, ?_⟩
  simp [validateJWTSignature, joseSignJWT, decodeHeaderSegment, checkPrivateKey,
    includesSec1Header, importSPKI, generateEC512KeyPair, joseJwtVerify, mkSignature,
    not_le.mpr hfuture]

/-- Witness for C1 at a concrete signing instant, expiry and clock. -/
theorem verify_sign_roundtrip_witness :
    signJWT { exp := none, iat := none, extra := [] } "ES512"
        (generateEC512KeyPair 5 "kid" "ts") 100 50 =
      Except.ok (joseSignJWT { exp := none, iat := none, extra := [] } "ES512" ⟨5⟩ 100 50) ∧
    validateJWTSignature (joseSignJWT { exp := none, iat := none, extra := [] } "ES512" ⟨5⟩ 100 50)
        (some (generateEC512KeyPair 5 "kid" "ts")) 60 =
      { isValid := true, error := none, errors := none } :=
  verify_sign_roundtrip { exp := none, iat := none, extra := [] } "ES512" 5 "kid" "ts"
    100 50 60 (by decide) (by decide)

/-- C1 counterexample: with the supported algorithm and a fresh key pair, a
token signed for the past expiry instant 1000 verifies with isValid false at
clock 2000, refuting the claim over every expiry instant. -/
theorem verify_sign_past_expiry_cex :
    "ES512" ∈ SUPPORTED_ALGORITHMS ∧
    signJWT { exp := none, iat := none, extra := [] } "ES512"
        (generateEC512KeyPair 5 "kid" "ts") 1000 900 =
      Except.ok (joseSignJWT { exp := none, iat := none, extra := [] } "ES512" ⟨5⟩ 1000 900) ∧
    (validateJWTSignature (joseSignJWT { exp := none, iat := none, extra := [] } "ES512" ⟨5⟩ 1000 900)
        (some (generateEC512KeyPair 5 "kid" "ts")) 2000).isValid = false := by
  exact ⟨by decide, rfl, by decide⟩

/-- C2 (amended): a token whose signature is valid under the supplied key
pair but whose exp claim is at or before the verification clock yields
isValid false with the JWTExpired message: expiry is folded into isValid by
jwtVerify claim validation, and the code reports even this failure under its
signature flag. -/
theorem expired_token_folds_into_isValid (hdr : Header) (pl : Payload) (kp : KeyPair)
    (e now : Int) (halg : hdr.alg = some "ES512")
    (hpub : kp.publicKey.fmt = KeyFormat.spki)
    (hexp : pl.exp = some e) (hpast : e ≤ now) :
    validateJWTSignature (Token.compact hdr pl (mkSignature kp.publicKey.material hdr pl))
        (some kp) now =
      { isValid := false
        error := some jwtExpiredMsg
        errors := some { expired := none, sigFlag := some true, message := some jwtExpiredMsg } } := by
  simp [validateJWTSignature, decodeHeaderSegment, checkPrivateKey, includesSec1Header,
    hpub, halg, importSPKI, joseJwtVerify, hexp, hpast, mkSignature]

/-- Witness for C2 (amended) at a concrete expired token. -/
theorem expired_token_folds_into_isValid_witness :
    validateJWTSignature
        (Token.compact { alg := some "ES512" } { exp := some 10, iat := none, extra := [] }
          (mkSignature (generateEC512KeyPair 3 "kid" "ts").publicKey.material
            { alg := some "ES512" } { exp := some 10, iat := none, extra := [] }))
        (some (generateEC512KeyPair 3 "kid" "ts")) 20 =
      { isValid := false
        error := some jwtExpiredMsg
        errors := some { expired := none, sigFlag := some true, message := some jwtExpiredMsg } } :=
  expired_token_folds_into_isValid { alg := some "ES512" }
    { exp := some 10, iat := none, extra := [] } (generateEC512KeyPair 3 "kid" "ts")
    10 20 rfl rfl rfl (by decide)

/-- C2 counterexample: the same token verifies cleanly at clock 500 (its
signature is valid under the supplied public key) yet validation at clock
2000 returns isValid false, refuting the claim that verify still returns
isValid true for expired tokens. -/
theorem expired_token_still_valid_cex :
    joseJwtVerify
        (Token.compact { alg := some "ES512" } { exp := some 1000, iat := some 500, extra := [] }
          (mkSignature 3 { alg := some "ES512" } { exp := some 1000, iat := some 500, extra := [] }))
        ⟨3⟩ 500 = Except.ok () ∧
    (validateJWTSignature
        (Token.compact { alg := some "ES512" } { exp := some 1000, iat := some 500, extra := [] }
          (mkSignature 3 { alg := some "ES512" } { exp := some 1000, iat := some 500, extra := [] }))
        (some (generateEC512KeyPair 3 "kid" "ts")) 2000).isValid = false := by
  exact ⟨rfl, by decide⟩

/-- C3 (amended): the validation effect applies every verification
completion unconditionally, so after selectKey K1 then selectKey K2 the
final ValidationResult reflects whichever verification resolves last; when
the completions resolve in issue order the session ends with K2's result
and no pending verification. -/
theorem validation_last_resolution_wins (verif : String → String → ValidationResult)
    (s : EditorSession) (k1 k2 : String)
    (hjwt : (s.jwtText != "") = true) (hk1 : (k1 != "") = true)
    (hk2 : (k2 != "") = true) (hp : s.pending = []) :
    sessionRun verif s
      [SessionEvent.selectKey k1, SessionEvent.selectKey k2,
       SessionEvent.resolveAt 0, SessionEvent.resolveAt 0] =
      { jwtText := s.jwtText, selectedKeyId := k2
        validation := some (verif s.jwtText k2), pending := [] } := by
  simp [sessionRun, sessionStep, hjwt, hk1, hk2, hp]

/-- Witness for C3 (amended) at a concrete session and key ids. -/
theorem validation_last_resolution_wins_witness :
    sessionRun (fun _ _ => { isValid := true, error := none, errors := none })
      { jwtText := "tok", selectedKeyId := "", validation := none, pending := [] }
      [SessionEvent.selectKey "K1", SessionEvent.selectKey "K2",
       SessionEvent.resolveAt 0, SessionEvent.resolveAt 0] =
      { jwtText := "tok", selectedKeyId := "K2"
        validation := some { isValid := true, error := none, errors := none }
        pending := [] } :=
  validation_last_resolution_wins (fun _ _ => { isValid := true, error := none, errors := none })
    { jwtText := "tok", selectedKeyId := "", validation := none, pending := [] }
    "K1" "K2" (by decide) (by decide) (by decide) rfl

/-- C3 counterexample: selectKey K1 then selectKey K2 with K2's
verification resolving first; the later K1 completion is applied, not
discarded, so the session ends with K1's result although K2 is the selected
key: the stale result is not ignored. -/
theorem stale_validation_applied_cex :
    sessionRun
      (fun _ k =>
        if k == "K2" then { isValid := true, error := none, errors := none }
        else { isValid := false, error := some "stale", errors := none })
      { jwtText := "tok", selectedKeyId := "", validation := none, pending := [] }
      [SessionEvent.selectKey "K1", SessionEvent.selectKey "K2",
       SessionEvent.resolveAt 1, SessionEvent.resolveAt 0] =
      { jwtText := "tok", selectedKeyId := "K2"
        validation := some { isValid := false, error := some "stale", errors := none }
        pending := [] } := by
  decide

/-- C4: evaluation of the editor sign action at the failing input: payload
text an empty object, no expiry override, issued override 1000, fresh key,
signing clock 2000. The signed token carries iat 2000 (the signing clock),
not the chosen 1000: setIssuedAt in signJWT overwrites the iat the override
wrote into the payload, so the issued-date override never reaches the
token. -/
theorem issued_override_lost_at_sign :
    handleSign (some { exp := none, iat := none, extra := [] }) none (some 1000) "ES512"
        [generateEC512KeyPair 7 "k1" "t1"] "k1" 2000 =
      some (Except.ok (Token.compact { alg := some "ES512" }
        { exp := some 2000, iat := some 2000, extra := [] }
        (mkSignature 7 { alg := some "ES512" }
          { exp := some 2000, iat := some 2000, extra := [] }))) := by
  rfl

/-- C5: signing with a key pair whose private key text carries the SEC1
begin marker fails with the unsupported-key-format error, whose message
mentions PKCS8 conversion, before any import or conversion is attempted. -/
theorem sign_rejects_sec1_private_key (payload : Payload) (alg : String)
    (kp : KeyPair) (e now : Int) (h : includesSec1Header kp.privateKey = true) :
    signJWT payload alg kp e now = Except.error sec1ErrorMsg ∧
    mentionsPKCS8 sec1ErrorMsg = true := by
  have hf : kp.privateKey.fmt = KeyFormat.sec1 := by
    simpa [includesSec1Header] using h
  refine ⟨?_, by decide⟩
  simp [signJWT, isEmptyKeyText, hf, checkPrivateKey, includesSec1Header]

/-- Witness for C5 at a concrete SEC1 key pair. -/
theorem sign_rejects_sec1_private_key_witness :
    signJWT { exp := none, iat := none, extra := [] } "ES512"
        { id := "k", name := "kp", privateKey := { fmt := KeyFormat.sec1, material := 4 }
          publicKey := { fmt := KeyFormat.spki, material := 4 }, createdAt := "t" } 100 50 =
      Except.error sec1ErrorMsg ∧
    mentionsPKCS8 sec1ErrorMsg = true :=
  sign_rejects_sec1_private_key { exp := none, iat := none, extra := [] } "ES512"
    { id := "k", name := "kp", privateKey := { fmt := KeyFormat.sec1, material := 4 }
      publicKey := { fmt := KeyFormat.spki, material := 4 }, createdAt := "t" } 100 50 rfl

/-- C6: for every collection state and input fields, add returns the input
fields plus the generated id and timestamp and getById on the fresh id
yields exactly that record; remove followed by getById on the same id yields
absent in every state; and any sequence of adds appends its items in call
order. -/
theorem collection_add_find_remove_order (s : StoreState) (f u n : String)
    (hfresh : ∀ x ∈ s.items, (x.id == u) = false) :
    ((addOp s f u n).2 = { id := u, createdAt := n, fields := f } ∧
      getById (addOp s f u n).1 u = some { id := u, createdAt := n, fields := f }) ∧
    (∀ (s2 : StoreState) (id : String), getById (removeOp s2 id) id = none) ∧
    (∀ reqs : List AddReq, (addMany s reqs).items = s.items ++ reqs.map itemOfReq) := by
  refine ⟨⟨rfl, ?_⟩, ?_, fun reqs => addMany_items reqs s⟩
  · show ((addOp s f u n).1.items.find? fun x => x.id == u) = _
    have hitems : (addOp s f u n).1.items = s.items ++ [{ id := u, createdAt := n, fields := f }] := rfl
    rw [hitems]
    exact find_append_fresh s.items _ u hfresh (by simp)
  · intro s2 id
    show ((removeOp s2 id).items.find? fun x => x.id == id) = none
    have hitems : (removeOp s2 id).items = s2.items.filter fun x => x.id != id := rfl
    rw [hitems]
    exact find_filter_ne s2.items id

/-- Witness for C6 at a concrete store state and add request. -/
theorem collection_add_find_remove_order_witness :
    ((addOp { storage := none, items := [{ id := "a", createdAt := "t0", fields := "x" }],
              error := none, writeFails := false } "y" "b" "t1").2 =
        { id := "b", createdAt := "t1", fields := "y" } ∧
      getById (addOp { storage := none, items := [{ id := "a", createdAt := "t0", fields := "x" }],
                       error := none, writeFails := false } "y" "b" "t1").1 "b" =
        some { id := "b", createdAt := "t1", fields := "y" }) ∧
    (∀ (s2 : StoreState) (id : String), getById (removeOp s2 id) id = none) ∧
    (∀ reqs : List AddReq,
      (addMany { storage := none, items := [{ id := "a", createdAt := "t0", fields := "x" }],
                 error := none, writeFails := false } reqs).items =
        [{ id := "a", createdAt := "t0", fields := "x" }] ++ reqs.map itemOfReq) :=
  collection_add_find_remove_order
    { storage := none, items := [{ id := "a", createdAt := "t0", fields := "x" }],
      error := none, writeFails := false } "y" "b" "t1" (by decide)

/-- C7: when storage holds a value that is unreadable or not a JSON array
and no defaults are configured, the load effect yields the empty collection
without failing, and a subsequent add succeeds and persists a valid
one-element array. -/
theorem corrupt_storage_empty_then_add (sv : StoredVal) (f u n : String)
    (hsv : isJsonArrayVal sv = false) :
    (loadOp { storage := some sv, items := [], error := none, writeFails := false } []).1.items
      = [] ∧
    (addOp (loadOp { storage := some sv, items := [], error := none, writeFails := false } []).1
        f u n).1.items = [{ id := u, createdAt := n, fields := f }] ∧
    (addOp (loadOp { storage := some sv, items := [], error := none, writeFails := false } []).1
        f u n).1.storage =
      some (StoredVal.jsonArray [{ id := u, createdAt := n, fields := f }]) := by
  cases sv with
  | jsonArray xs => simp [isJsonArrayVal] at hsv
  | jsonNonArray => exact ⟨rfl, rfl, rfl⟩
  | notJson t => exact ⟨rfl, rfl, rfl⟩

/-- Witness for C7 at the literal corrupt text of the spec scenario. -/
theorem corrupt_storage_empty_then_add_witness :
    (loadOp { storage := some (StoredVal.notJson "not an array"), items := [],
              error := none, writeFails := false } []).1.items = [] ∧
    (addOp (loadOp { storage := some (StoredVal.notJson "not an array"), items := [],
                     error := none, writeFails := false } []).1 "x" "id1" "t1").1.items =
      [{ id := "id1", createdAt := "t1", fields := "x" }] ∧
    (addOp (loadOp { storage := some (StoredVal.notJson "not an array"), items := [],
                     error := none, writeFails := false } []).1 "x" "id1" "t1").1.storage =
      some (StoredVal.jsonArray [{ id := "id1", createdAt := "t1", fields := "x" }]) :=
  corrupt_storage_empty_then_add (StoredVal.notJson "not an array") "x" "id1" "t1" rfl

/-- C8: when the storage write fails, every mutating call records the
failure in the store error state instead of throwing (the operations are
total functions), leaves the storage cell unchanged, and still applies the
in-memory mutation exactly as it would with a succeeding write. -/
theorem persist_failure_captured (s : StoreState) (f u n id nf rid : String)
    (hwf : s.writeFails = true) :
    ((addOp s f u n).1.items = (addOp { s with writeFails := false } f u n).1.items ∧
      (addOp s f u n).1.storage = s.storage ∧
      (addOp s f u n).1.error = some storageWriteErrorMsg ∧
      (addOp s f u n).2 = (addOp { s with writeFails := false } f u n).2) ∧
    ((updateOp s id nf).items = (updateOp { s with writeFails := false } id nf).items ∧
      (updateOp s id nf).storage = s.storage ∧
      (updateOp s id nf).error = some storageWriteErrorMsg) ∧
    ((removeOp s rid).items = (removeOp { s with writeFails := false } rid).items ∧
      (removeOp s rid).storage = s.storage ∧
      (removeOp s rid).error = some storageWriteErrorMsg) := by
  refine ⟨⟨rfl, ?_, ?_, rfl⟩, ⟨rfl, ?_, ?_⟩, ⟨rfl, ?_, ?_⟩⟩ <;>
    simp [addOp, updateOp, removeOp, persist, hwf]

/-- Witness for C8 at a concrete failing store. -/
theorem persist_failure_captured_witness :
    ((addOp { storage := none, items := [], error := none, writeFails := true } "x" "a" "t").1.items =
        (addOp { storage := none, items := [], error := none, writeFails := false } "x" "a" "t").1.items ∧
      (addOp { storage := none, items := [], error := none, writeFails := true } "x" "a" "t").1.storage = none ∧
      (addOp { storage := none, items := [], error := none, writeFails := true } "x" "a" "t").1.error =
        some storageWriteErrorMsg ∧
      (addOp { storage := none, items := [], error := none, writeFails := true } "x" "a" "t").2 =
        (addOp { storage := none, items := [], error := none, writeFails := false } "x" "a" "t").2) ∧
    ((updateOp { storage := none, items := [], error := none, writeFails := true } "a" "y").items =
        (updateOp { storage := none, items := [], error := none, writeFails := false } "a" "y").items ∧
      (updateOp { storage := none, items := [], error := none, writeFails := true } "a" "y").storage = none ∧
      (updateOp { storage := none, items := [], error := none, writeFails := true } "a" "y").error =
        some storageWriteErrorMsg) ∧
    ((removeOp { storage := none, items := [], error := none, writeFails := true } "a").items =
        (removeOp { storage := none, items := [], error := none, writeFails := false } "a").items ∧
      (removeOp { storage := none, items := [], error := none, writeFails := true } "a").storage = none ∧
      (removeOp { storage := none, items := [], error := none, writeFails := true } "a").error =
        some storageWriteErrorMsg) :=
  persist_failure_captured { storage := none, items := [], error := none, writeFails := true }
    "x" "a" "t" "a" "y" "a" rfl

/-- C9 (amended): with a non-empty default set, a load that finds storage
holding an empty array (exactly what remove leaves after the last item is
deleted) seeds the defaults again: seeding happens on every such load, at
most once per load but not at most once over the lifecycle. -/
theorem empty_array_storage_reseeds (s : StoreState) (defaults : List StorableItem)
    (h1 : s.storage = some (StoredVal.jsonArray [])) (h2 : defaults ≠ [])
    (h3 : s.writeFails = false) :
    loadOp s defaults =
      ({ s with items := defaults, storage := some (StoredVal.jsonArray defaults) }, true) := by
  have hl : 0 < defaults.length := List.length_pos.mpr h2
  simp [loadOp, h1, seedDefaults, h3, hl]

/-- Witness for C9 (amended) at a concrete emptied store. -/
theorem empty_array_storage_reseeds_witness :
    loadOp { storage := some (StoredVal.jsonArray []), items := [], error := none
             writeFails := false } [{ id := "d1", createdAt := "t0", fields := "tpl" }] =
      ({ storage := some (StoredVal.jsonArray [{ id := "d1", createdAt := "t0", fields := "tpl" }])
         items := [{ id := "d1", createdAt := "t0", fields := "tpl" }]
         error := none, writeFails := false }, true) :=
  empty_array_storage_reseeds
    { storage := some (StoredVal.jsonArray []), items := [], error := none, writeFails := false }
    [{ id := "d1", createdAt := "t0", fields := "tpl" }] rfl (by decide) rfl

/-- C9 counterexample: starting from empty storage with one configured
default, the sequence load, remove the default, load writes the default set
to storage twice, and the store ends holding the defaults again: seeding is
not at most once over the reachable lifecycle. -/
theorem default_seed_written_twice_cex :
    (runStore [{ id := "d1", createdAt := "t0", fields := "tpl" }]
        { storage := none, items := [], error := none, writeFails := false }
        [StoreOp.load, StoreOp.removeItem "d1", StoreOp.load]).2 = 2 ∧
    (runStore [{ id := "d1", createdAt := "t0", fields := "tpl" }]
        { storage := none, items := [], error := none, writeFails := false }
        [StoreOp.load, StoreOp.removeItem "d1", StoreOp.load]).1.items =
      [{ id := "d1", createdAt := "t0", fields := "tpl" }] := by
  exact ⟨rfl, rfl⟩

/-- C10 (amended): for every structurally parsable token, a key pair whose
public key text carries the SEC1 begin marker makes verification fail with
the PKCS8-conversion message before any SPKI import or signature check: the
verifier runs checkPrivateKey on the public key field. -/
theorem verifier_rejects_sec1_public_key (hdr : Header) (pl : Payload) (sig : Sig)
    (kp : KeyPair) (now : Int) (h : includesSec1Header kp.publicKey = true) :
    validateJWTSignature (Token.compact hdr pl sig) (some kp) now =
      { isValid := false
        error := some sec1ErrorMsg
        errors := some { expired := none, sigFlag := some true, message := some sec1ErrorMsg } } ∧
    mentionsPKCS8 sec1ErrorMsg = true := by
  refine ⟨?_, by decide⟩
  simp [validateJWTSignature, decodeHeaderSegment, checkPrivateKey, h]

/-- Witness for C10 (amended) at a concrete token and SEC1 public key. -/
theorem verifier_rejects_sec1_public_key_witness :
    validateJWTSignature
        (Token.compact { alg := some "ES512" } { exp := none, iat := none, extra := [] }
          (mkSignature 0 { alg := some "ES512" } { exp := none, iat := none, extra := [] }))
        (some { id := "k", name := "kp", privateKey := { fmt := KeyFormat.pkcs8, material := 0 }
                publicKey := { fmt := KeyFormat.sec1, material := 0 }, createdAt := "t" }) 0 =
      { isValid := false
        error := some sec1ErrorMsg
        errors := some { expired := none, sigFlag := some true, message := some sec1ErrorMsg } } ∧
    mentionsPKCS8 sec1ErrorMsg = true :=
  verifier_rejects_sec1_public_key { alg := some "ES512" }
    { exp := none, iat := none, extra := [] }
    (mkSignature 0 { alg := some "ES512" } { exp := none, iat := none, extra := [] })
    { id := "k", name := "kp", privateKey := { fmt := KeyFormat.pkcs8, material := 0 }
      publicKey := { fmt := KeyFormat.sec1, material := 0 }, createdAt := "t" } 0 rfl

/-- C10 counterexample: on a token whose header segment is not parsable the
header JSON parse throws before checkPrivateKey runs, so verification with a
SEC1 public key returns isValid false with the parse message, not the
PKCS8-conversion message: the claim does not hold for every token. -/
theorem malformed_token_sec1_pub_cex :
    validateJWTSignature (Token.malformed "abc")
        (some { id := "k", name := "kp", privateKey := { fmt := KeyFormat.pkcs8, material := 0 }
                publicKey := { fmt := KeyFormat.sec1, material := 0 }, createdAt := "t" }) 0 =
      { isValid := false
        error := some jsonParseErrorMsg
        errors := some { expired := none, sigFlag := some true, message := some jsonParseErrorMsg } } ∧
    jsonParseErrorMsg ≠ sec1ErrorMsg := by
  exact ⟨rfl, by decide⟩

end AkTools
